/-
Verification development for the InstagramClone FastAPI backend.

The embedded code is `app/app.py` (endpoints `upload_file`, `get_feed`,
`delete_post`) and `app/db.py` (the `Post` data model).  External
collaborators (the ImageKit media gateway, the SQLAlchemy session, the
filesystem and the inbound multipart stream) are modelled as explicit
oracles and state threaded through the endpoint functions; Python
exceptions are modelled with `Except`, and the `try/except/finally`
structure of the handlers is mirrored by explicit case analysis plus a
cleanup step applied on every path.  Python `datetime` values are
modelled by a record of calendar fields, `datetime.isoformat` /
`datetime.fromisoformat` (the fragment reachable from `isoformat`
output) and `uuid.UUID` string parsing / printing are modelled over
lists of characters.
-/
import Mathlib

/-! ## Decimal / hexadecimal digit machinery -/

/-- The character for a single digit value, lowercase hex for 10..15
(as produced by Python's number formatting). -/
def digitChar (d : Nat) : Char :=
  match d with
  | 0 => '0' | 1 => '1' | 2 => '2' | 3 => '3' | 4 => '4'
  | 5 => '5' | 6 => '6' | 7 => '7' | 8 => '8' | 9 => '9'
  | 10 => 'a' | 11 => 'b' | 12 => 'c' | 13 => 'd' | 14 => 'e'
  | 15 => 'f' | _ => '?'

/-- Numeric value of a (decimal or hex) digit character. -/
def hexCharVal (c : Char) : Nat :=
  if c.isDigit then c.toNat - 48
  else if 'a' ≤ c ∧ c ≤ 'f' then c.toNat - 87
  else if 'A' ≤ c ∧ c ≤ 'F' then c.toNat - 55
  else 0

/-- Recognizer for decimal or hex digit characters. -/
def isHexDigitChar (c : Char) : Bool :=
  c.isDigit || ('a' ≤ c && c ≤ 'f') || ('A' ≤ c && c ≤ 'F')

/-- `n` printed in base `b`, zero-padded on the left to exactly `w`
characters (the shape of Python's `f-string` fixed-width formatting). -/
def natToPadded (b : Nat) : Nat → Nat → List Char
  | 0, _ => []
  | w + 1, n => natToPadded b w (n / b) ++ [digitChar (n % b)]

/-- Value of a big-endian digit-character string in base `b`. -/
def digitsVal (b : Nat) (cs : List Char) : Nat :=
  cs.foldl (fun a c => a * b + hexCharVal c) 0

theorem hexCharVal_digitChar (d : Nat) (hd : d < 16) :
    hexCharVal (digitChar d) = d := by
  interval_cases d <;> decide

theorem isHexDigitChar_digitChar (d : Nat) (hd : d < 16) :
    isHexDigitChar (digitChar d) = true := by
  interval_cases d <;> decide

theorem isDigit_digitChar (d : Nat) (hd : d < 10) :
    (digitChar d).isDigit = true := by
  interval_cases d <;> decide

theorem length_natToPadded (b : Nat) : ∀ (w n : Nat), (natToPadded b w n).length = w
  | 0, _ => rfl
  | w + 1, n => by
    simp [natToPadded, length_natToPadded b w (n / b)]

theorem digitsVal_natToPadded (b : Nat) (hb : 2 ≤ b) (hb16 : b ≤ 16) :
    ∀ (w n : Nat), n < b ^ w → digitsVal b (natToPadded b w n) = n
  | 0, n, hn => by
    rw [pow_zero] at hn
    simp [natToPadded, digitsVal]
    omega
  | w + 1, n, hn => by
    have hrec : n / b < b ^ w := by
      rw [Nat.div_lt_iff_lt_mul (by omega)]
      calc n < b ^ (w + 1) := hn
        _ = b ^ w * b := by ring
    have hmod : n % b < 16 := lt_of_lt_of_le (Nat.mod_lt n (by omega)) hb16
    have ih := digitsVal_natToPadded b hb hb16 w (n / b) hrec
    unfold natToPadded
    unfold digitsVal at ih ⊢
    rw [List.foldl_append, ih]
    simp [List.foldl, hexCharVal_digitChar _ hmod]
    rw [Nat.mul_comm]
    exact Nat.div_add_mod n b

theorem all_isDigit_natToPadded : ∀ (w n : Nat),
    (natToPadded 10 w n).all Char.isDigit = true
  | 0, _ => rfl
  | w + 1, n => by
    have hmod : n % 10 < 10 := Nat.mod_lt n (by omega)
    simp [natToPadded, List.all_append,
      all_isDigit_natToPadded w (n / 10), isDigit_digitChar _ hmod]

theorem all_isHex_natToPadded : ∀ (w n : Nat),
    (natToPadded 16 w n).all isHexDigitChar = true
  | 0, _ => rfl
  | w + 1, n => by
    have hmod : n % 16 < 16 := Nat.mod_lt n (by omega)
    simp [natToPadded, List.all_append,
      all_isHex_natToPadded w (n / 16), isHexDigitChar_digitChar _ hmod]

theorem isHexDigitChar_ne_dash (c : Char) (h : isHexDigitChar c = true) :
    c ≠ '-' := by
  intro hc
  subst hc
  exact absurd h (by decide)

/-! ## Fixed-width numeric field reading (the parsing side) -/

/-- Read exactly `w` decimal digit characters as a number, returning the
rest of the input. -/
def readFixedNat (w : Nat) (cs : List Char) : Option (Nat × List Char) :=
  let pre := cs.take w
  if pre.length = w ∧ pre.all Char.isDigit then some (digitsVal 10 pre, cs.drop w)
  else none

/-- Consume one expected literal character. -/
def expectChar (c : Char) : List Char → Option (List Char)
  | [] => none
  | c' :: rest => if c' = c then some rest else none

theorem expectChar_cons (c : Char) (rest : List Char) :
    expectChar c (c :: rest) = some rest := by
  simp [expectChar]

theorem readFixedNat_padded (w n : Nat) (rest : List Char) (hn : n < 10 ^ w) :
    readFixedNat w (natToPadded 10 w n ++ rest) = some (n, rest) := by
  have hlen : (natToPadded 10 w n).length = w := length_natToPadded 10 w n
  unfold readFixedNat
  rw [List.take_left' hlen, List.drop_left' hlen]
  simp [hlen, all_isDigit_natToPadded w n,
    digitsVal_natToPadded 10 (by omega) (by omega) w n hn]

theorem readFixedNat_padded_exact (w n : Nat) (hn : n < 10 ^ w) :
    readFixedNat w (natToPadded 10 w n) = some (n, []) := by
  have := readFixedNat_padded w n [] hn
  rwa [List.append_nil] at this

/-! ## Python `datetime` model -/

/-- A Python `datetime.datetime` value (naive, as produced by
`datetime.utcnow` in `app/db.py`). -/
structure DateTime where
  year : Nat
  month : Nat
  day : Nat
  hour : Nat
  minute : Nat
  second : Nat
  microsecond : Nat
deriving DecidableEq

/-- The field-range invariants Python's `datetime` constructor enforces
(`MINYEAR = 1`, `MAXYEAR = 9999`, etc.). -/
def DateTime.valid (t : DateTime) : Prop :=
  1 ≤ t.year ∧ t.year ≤ 9999 ∧ 1 ≤ t.month ∧ t.month ≤ 12 ∧
  1 ≤ t.day ∧ t.day ≤ 31 ∧ t.hour ≤ 23 ∧ t.minute ≤ 59 ∧
  t.second ≤ 59 ∧ t.microsecond ≤ 999999

instance (t : DateTime) : Decidable t.valid := by
  unfold DateTime.valid
  infer_instance

/-- A numeric key strictly monotone in chronological order over valid
datetimes; the model's stand-in for the chronological order the
database uses for `ORDER BY created_at`. -/
def DateTime.key (t : DateTime) : Nat :=
  ((((t.year * 13 + t.month) * 32 + t.day) * 24 + t.hour) * 60 + t.minute) * 60000000 +
    t.second * 1000000 + t.microsecond

/-- Character string of `datetime.isoformat()` (default separator `'T'`,
default `timespec='auto'`: the `.ffffff` part is printed exactly when
`microsecond` is nonzero). -/
def DateTime.isoChars (t : DateTime) : List Char :=
  natToPadded 10 4 t.year ++ '-' :: (natToPadded 10 2 t.month ++ '-' ::
    (natToPadded 10 2 t.day ++ 'T' :: (natToPadded 10 2 t.hour ++ ':' ::
      (natToPadded 10 2 t.minute ++ ':' :: (natToPadded 10 2 t.second ++
        (if t.microsecond = 0 then [] else '.' :: natToPadded 10 6 t.microsecond))))))

/-- `datetime.isoformat()` as used by `get_feed` in `app/app.py` lines
118-119. -/
def DateTime.isoformat (t : DateTime) : String :=
  String.mk t.isoChars

/-- Parser for the character strings produced by `DateTime.isoChars`;
the fragment of Python's `datetime.fromisoformat` reachable from
`isoformat` output. -/
def parseIsoChars (cs : List Char) : Option DateTime := do
  let (y, cs) ← readFixedNat 4 cs
  let cs ← expectChar '-' cs
  let (mo, cs) ← readFixedNat 2 cs
  let cs ← expectChar '-' cs
  let (d, cs) ← readFixedNat 2 cs
  let cs ← expectChar 'T' cs
  let (h, cs) ← readFixedNat 2 cs
  let cs ← expectChar ':' cs
  let (mi, cs) ← readFixedNat 2 cs
  let cs ← expectChar ':' cs
  let (sec, cs) ← readFixedNat 2 cs
  match cs with
  | [] => some ⟨y, mo, d, h, mi, sec, 0⟩
  | '.' :: cs2 =>
    match readFixedNat 6 cs2 with
    | some (us, []) => some ⟨y, mo, d, h, mi, sec, us⟩
    | _ => none
  | _ => none

/-- `datetime.fromisoformat`, restricted to the shapes `isoformat`
emits. -/
def fromisoformat (s : String) : Option DateTime :=
  parseIsoChars s.data

set_option maxHeartbeats 1000000 in
theorem fromisoformat_isoformat (t : DateTime) (ht : t.valid) :
    fromisoformat t.isoformat = some t := by
  obtain ⟨hy1, hy2, hm1, hm2, hd1, hd2, hh, hmi, hs, hus⟩ := ht
  have hy : t.year < 10 ^ 4 := by norm_num; omega
  have hmo : t.month < 10 ^ 2 := by norm_num; omega
  have hd : t.day < 10 ^ 2 := by norm_num; omega
  have hho : t.hour < 10 ^ 2 := by norm_num; omega
  have hmin : t.minute < 10 ^ 2 := by norm_num; omega
  have hsec : t.second < 10 ^ 2 := by norm_num; omega
  have husb : t.microsecond < 10 ^ 6 := by norm_num; omega
  show parseIsoChars t.isoChars = some t
  unfold DateTime.isoChars parseIsoChars
  rw [readFixedNat_padded 4 t.year _ hy]
  simp only [Option.bind_eq_bind, Option.some_bind, expectChar_cons]
  rw [readFixedNat_padded 2 t.month _ hmo]
  simp only [Option.some_bind, expectChar_cons]
  rw [readFixedNat_padded 2 t.day _ hd]
  simp only [Option.some_bind, expectChar_cons]
  rw [readFixedNat_padded 2 t.hour _ hho]
  simp only [Option.some_bind, expectChar_cons]
  rw [readFixedNat_padded 2 t.minute _ hmin]
  simp only [Option.some_bind, expectChar_cons]
  by_cases h0 : t.microsecond = 0
  · rw [if_pos h0, List.append_nil, readFixedNat_padded_exact 2 t.second hsec]
    simp only [Option.some_bind]
    rw [← h0]
  · simp only [if_neg h0]
    rw [readFixedNat_padded 2 t.second _ hsec]
    simp only [Option.some_bind]
    rw [readFixedNat_padded_exact 6 t.microsecond husb]

/-! ## Python `uuid.UUID` model -/

/-- The canonical 8-4-4-4-12 dashed lowercase hex rendering of a UUID's
128-bit value, i.e. Python's `str(uuid_value)`. -/
def uuidChars (u : Nat) : List Char :=
  let h := natToPadded 16 32 u
  h.take 8 ++ '-' :: ((h.drop 8).take 4 ++ '-' :: ((h.drop 12).take 4 ++ '-' ::
    ((h.drop 16).take 4 ++ '-' :: h.drop 20)))

/-- `str(post.id)` as used by `get_feed` in `app/app.py` line 113. -/
def uuidToString (u : Nat) : String :=
  String.mk (uuidChars u)

/-- A brace character (stripped from the ends by `uuid.UUID`). -/
def isBraceChar (c : Char) : Bool :=
  c = '\x7b' || c = '\x7d'

/-- Strip brace characters from both ends, as `hex.strip` does in
`uuid.UUID.__init__`. -/
def stripBraces (cs : List Char) : List Char :=
  ((cs.dropWhile isBraceChar).reverse.dropWhile isBraceChar).reverse

/-- Python's `uuid.UUID(hex=s)` string parsing: strip surrounding
braces, remove dashes, require exactly 32 hex digits, and read them in
base 16 (the `urn:uuid:` prefix form is not modelled). -/
def uuidParse (s : String) : Option Nat :=
  let hex := (stripBraces s.data).filter (fun c => c != '-')
  if hex.length = 32 ∧ hex.all isHexDigitChar then some (digitsVal 16 hex)
  else none

theorem dropWhile_eq_self_of_all {p : Char → Bool} :
    ∀ (cs : List Char), (∀ c ∈ cs, p c = false) → cs.dropWhile p = cs
  | [], _ => rfl
  | c :: cs, h => by
    simp [List.dropWhile, h c (by simp)]

theorem stripBraces_eq_self (cs : List Char)
    (h : ∀ c ∈ cs, isBraceChar c = false) : stripBraces cs = cs := by
  unfold stripBraces
  rw [dropWhile_eq_self_of_all cs h]
  rw [dropWhile_eq_self_of_all cs.reverse (fun c hc => h c (List.mem_reverse.mp hc))]
  exact List.reverse_reverse cs

theorem isHexDigitChar_not_brace (c : Char) (h : isHexDigitChar c = true) :
    isBraceChar c = false := by
  by_contra hb
  rw [Bool.not_eq_false] at hb
  unfold isBraceChar at hb
  rcases Bool.or_eq_true_iff.mp hb with h' | h'
  · rw [decide_eq_true_eq] at h'
    subst h'
    exact absurd h (by decide)
  · rw [decide_eq_true_eq] at h'
    subst h'
    exact absurd h (by decide)

theorem mem_uuidChars_hex (u : Nat) (c : Char) (hc : c ∈ uuidChars u) :
    isHexDigitChar c = true ∨ c = '-' := by
  have hall : ∀ x ∈ natToPadded 16 32 u, isHexDigitChar x = true := by
    have := all_isHex_natToPadded 32 u
    rw [List.all_eq_true] at this
    exact fun x hx => this x hx
  unfold uuidChars at hc
  simp only [List.mem_append, List.mem_cons] at hc
  rcases hc with h | h | h | h | h | h | h | h | h
  · exact Or.inl (hall c (List.take_subset _ _ h))
  · exact Or.inr h
  · exact Or.inl (hall c (List.drop_subset _ _ (List.take_subset _ _ h)))
  · exact Or.inr h
  · exact Or.inl (hall c (List.drop_subset _ _ (List.take_subset _ _ h)))
  · exact Or.inr h
  · exact Or.inl (hall c (List.drop_subset _ _ (List.take_subset _ _ h)))
  · exact Or.inr h
  · exact Or.inl (hall c (List.drop_subset _ _ h))

theorem filter_ne_dash_uuidChars (u : Nat) :
    (uuidChars u).filter (fun c => c != '-') = natToPadded 16 32 u := by
  have hall : ∀ x ∈ natToPadded 16 32 u, isHexDigitChar x = true := by
    have := all_isHex_natToPadded 32 u
    rw [List.all_eq_true] at this
    exact fun x hx => this x hx
  have hkeep : ∀ (l : List Char), (∀ x ∈ l, isHexDigitChar x = true) →
      l.filter (fun c => c != '-') = l := by
    intro l hl
    apply List.filter_eq_self.mpr
    intro a ha
    have := isHexDigitChar_ne_dash a (hl a ha)
    simpa using this
  unfold uuidChars
  simp only [List.filter_append, List.filter_cons]
  have hdash : (('-' : Char) != '-') = false := by decide
  rw [hdash]
  simp only [Bool.false_eq_true, if_false]
  rw [hkeep _ (fun x hx => hall x (List.take_subset _ _ hx)),
    hkeep _ (fun x hx => hall x (List.drop_subset _ _ (List.take_subset _ _ hx))),
    hkeep _ (fun x hx => hall x (List.drop_subset _ _ (List.take_subset _ _ hx))),
    hkeep _ (fun x hx => hall x (List.drop_subset _ _ (List.take_subset _ _ hx))),
    hkeep _ (fun x hx => hall x (List.drop_subset _ _ hx))]
  have h20 : ((natToPadded 16 32 u).drop 16).take 4 ++ (natToPadded 16 32 u).drop 20 =
      (natToPadded 16 32 u).drop 16 := by
    have := List.take_append_drop 4 ((natToPadded 16 32 u).drop 16)
    rwa [List.drop_drop] at this
  have h16 : ((natToPadded 16 32 u).drop 12).take 4 ++ (natToPadded 16 32 u).drop 16 =
      (natToPadded 16 32 u).drop 12 := by
    have := List.take_append_drop 4 ((natToPadded 16 32 u).drop 12)
    rwa [List.drop_drop] at this
  have h12 : ((natToPadded 16 32 u).drop 8).take 4 ++ (natToPadded 16 32 u).drop 12 =
      (natToPadded 16 32 u).drop 8 := by
    have := List.take_append_drop 4 ((natToPadded 16 32 u).drop 8)
    rwa [List.drop_drop] at this
  rw [h20, h16, h12, List.take_append_drop]

theorem uuidParse_uuidToString (u : Nat) (hu : u < 2 ^ 128) :
    uuidParse (uuidToString u) = some u := by
  have hu16 : u < 16 ^ 32 := by
    have : (16 : Nat) ^ 32 = 2 ^ 128 := by
      rw [show (16 : Nat) = 2 ^ 4 from rfl, ← pow_mul]
    omega
  unfold uuidToString uuidParse
  have hstrip : stripBraces (uuidChars u) = uuidChars u := by
    apply stripBraces_eq_self
    intro c hc
    rcases mem_uuidChars_hex u c hc with h | h
    · exact isHexDigitChar_not_brace c h
    · subst h
      decide
  show (if ((stripBraces (uuidChars u)).filter (fun c => c != '-')).length = 32 ∧
      ((stripBraces (uuidChars u)).filter (fun c => c != '-')).all isHexDigitChar
    then some (digitsVal 16 ((stripBraces (uuidChars u)).filter (fun c => c != '-')))
    else none) = some u
  rw [hstrip, filter_ne_dash_uuidChars u]
  rw [if_pos ⟨length_natToPadded 16 32 u, all_isHex_natToPadded 32 u⟩]
  rw [digitsVal_natToPadded 16 (by omega) (by omega) 32 u hu16]

/-! ## Data model (`app/db.py`) -/

/-- The `Post` model of `app/db.py` lines 34-46.  `id` is the 128-bit
UUID value; `user_id` is `Option` because, although the column is
declared `nullable=False`, the ORM object can be constructed without it
(and `upload_file` does construct it without it). -/
structure Post where
  id : Nat
  user_id : Option Nat
  caption : String
  url : String
  file_type : String
  file_name : String
  created_at : DateTime
  updated_at : DateTime
deriving DecidableEq

/-- The NOT NULL constraint on `posts.user_id` declared in `app/db.py`
line 38 (`nullable=False`). -/
def postRowSchemaOk (p : Post) : Bool :=
  p.user_id.isSome

/-- A raised FastAPI/Starlette `HTTPException`. -/
structure HTTPException where
  status_code : Nat
  detail : String
deriving DecidableEq

/-! ## Upload endpoint (`app/app.py` lines 56-99) -/

/-- Outcome of the `imagekit.upload_file` remote call: either a response
envelope with an HTTP status plus the hosted `url` and canonical `name`,
or a raised exception. -/
inductive GatewayResult where
  | envelope (status : Nat) (url : String) (name : String)
  | raises (message : String)
deriving DecidableEq

/-- Oracle for one run of the upload handler: what the collaborators
(filesystem, gateway, database session, uuid/clock defaults) do during
the request. -/
structure UploadEnv where
  /-- `some m` when `shutil.copyfileobj` raises with message `m`. -/
  stagingExc : Option String
  /-- Result of the `imagekit.upload_file` call. -/
  gateway : GatewayResult
  /-- `some m` when `session.commit()` raises with message `m`. -/
  commitExc : Option String
  /-- The `uuid.uuid4()` default applied to `Post.id` at insert. -/
  freshId : Nat
  /-- The `datetime.utcnow` default applied to `Post.created_at`. -/
  createdNow : DateTime
  /-- The `datetime.utcnow` default applied to `Post.updated_at`. -/
  updatedNow : DateTime
deriving DecidableEq

/-- State of the scoped resources after the handler returns. -/
structure ResourceState where
  /-- Whether the staging temp file still exists on disk. -/
  tempOnDisk : Bool
  /-- Whether the inbound stream `file.file` has been closed. -/
  streamClosed : Bool
deriving DecidableEq

/-- The temp-file suffix argument of `app/app.py` line 66:
`file.filename[1]`, Python string indexing (raises `IndexError` when the
name has fewer than two characters). -/
def stagingSuffix (filename : String) : Except String String :=
  if 2 ≤ filename.length then .ok (String.mk [filename.data.getD 1 ' '])
  else .error "string index out of range"

/-- The `file_type` classification of `app/app.py` line 84:
`"video" if file.content_type.startswith("video/") else "image"`. -/
def fileTypeOf (contentType : String) : String :=
  if contentType.data.take 6 == "video/".data then "video" else "image"

/-- The `Post(...)` constructed at `app/app.py` lines 81-86 (note: no
`user_id` is passed) together with the column defaults applied at
commit (`id`, `created_at`, `updated_at` from `app/db.py` lines
37-44). -/
def uploadPost (env : UploadEnv) (caption contentType url name : String) : Post :=
  { id := env.freshId, user_id := none, caption := caption, url := url,
    file_type := fileTypeOf contentType, file_name := name,
    created_at := env.createdNow, updated_at := env.updatedNow }

/-- The `try` body of `upload_file` (`app/app.py` lines 65-93): staging
write, gateway call, and on a 200 envelope the construction and commit
of the `Post`.  Returns the raw result (an exception message or the
handler's return value: `some post` after the `return post`, `none` for
the implicit `return None` when the status is not 200), whether the
temp file was created, and the resulting store. -/
def uploadBody (env : UploadEnv) (filename caption contentType : String)
    (store : List Post) : Except String (Option Post) × Bool × List Post :=
  match stagingSuffix filename with
  | .error m => (.error m, false, store)
  | .ok _ =>
    match env.stagingExc with
    | some m => (.error m, true, store)
    | none =>
      match env.gateway with
      | .raises m => (.error m, true, store)
      | .envelope status url name =>
        if status = 200 then
          match env.commitExc with
          | some m => (.error m, true, store)
          | none =>
            (.ok (some (uploadPost env caption contentType url name)), true,
              store ++ [uploadPost env caption contentType url name])
        else (.ok none, true, store)

/-- The `finally` block of `app/app.py` lines 96-99: unlink the temp
file if a path was recorded and the file exists, and close the inbound
stream. -/
def finallyCleanup (tempPathSet tempOnDisk : Bool) : ResourceState :=
  { tempOnDisk := if tempPathSet && tempOnDisk then false else tempOnDisk,
    streamClosed := true }

/-- The `upload_file` endpoint (`app/app.py` lines 56-99): run the
`try` body, convert any exception into `HTTPException(500, str(e))`
(the `except` clause, line 95), and run the `finally` cleanup on every
path. -/
def upload_file (env : UploadEnv) (filename caption contentType : String)
    (store : List Post) : Except HTTPException (Option Post) × ResourceState × List Post :=
  match uploadBody env filename caption contentType store with
  | (.error m, created, store') =>
    (.error ⟨500, m⟩, finallyCleanup created created, store')
  | (.ok r, created, store') =>
    (.ok r, finallyCleanup created created, store')

/-! ## Feed endpoint (`app/app.py` lines 101-122) -/

/-- The `ORDER BY created_at DESC` comparison of `app/app.py` line
106. -/
def feedLE (a b : Post) : Prop :=
  b.created_at.key ≤ a.created_at.key

instance : DecidableRel feedLE := fun a b =>
  inferInstanceAs (Decidable (b.created_at.key ≤ a.created_at.key))

instance : IsTotal Post feedLE :=
  ⟨fun a b => Nat.le_total b.created_at.key a.created_at.key⟩

instance : IsTrans Post feedLE :=
  ⟨fun _ _ _ h1 h2 => le_trans h2 h1⟩

/-- Strict descending order on `created_at`, used to pin the feed down
uniquely when the timestamps are distinct. -/
def feedLT (a b : Post) : Prop :=
  b.created_at.key < a.created_at.key

instance : IsAntisymm Post feedLT :=
  ⟨fun _ _ h1 h2 => absurd (lt_trans h1 h2) (lt_irrefl _)⟩

/-- The rows produced by `select(Post).order_by(Post.created_at.desc())`
(`app/app.py` lines 106-108): all stored posts, sorted newest first. -/
def feedPosts (store : List Post) : List Post :=
  List.insertionSort feedLE store

/-- One element of the serialized feed (`app/app.py` lines 112-120). -/
structure PostView where
  id : String
  caption : String
  url : String
  file_type : String
  file_name : String
  created_at : String
  updated_at : String
deriving DecidableEq

/-- Serialization of one post in `get_feed` (`app/app.py` lines
112-120): `str(post.id)`, the string fields verbatim, and
`isoformat()` for both timestamps. -/
def serializePost (p : Post) : PostView :=
  { id := uuidToString p.id, caption := p.caption, url := p.url,
    file_type := p.file_type, file_name := p.file_name,
    created_at := p.created_at.isoformat, updated_at := p.updated_at.isoformat }

/-- The `get_feed` endpoint (`app/app.py` lines 101-122). -/
def get_feed (store : List Post) : List PostView :=
  (feedPosts store).map serializePost

/-! ## Delete endpoint (`app/app.py` lines 125-143) -/

/-- The success payload of `delete_post` (`app/app.py` line 140). -/
structure DeleteAck where
  success : Bool
  message : String
deriving DecidableEq

/-- `str(e)` for the `ValueError` raised by `uuid.UUID` on a malformed
string. -/
def malformedUuidDetail : String :=
  "badly formed hexadecimal UUID string"

/-- `str(e)` for the inner `HTTPException(404, "Post not found")`, as
interpolated by the catch-all `except` clause on line 143. -/
def notFoundDetail : String :=
  "404: Post not found"

/-- The `delete_post` endpoint (`app/app.py` lines 125-143).  All three
exits of the `try` body are modelled: a `ValueError` from `uuid.UUID`
and the inner `HTTPException(404, ...)` are both caught by
`except Exception` (of which `HTTPException` is a subclass) and
re-raised as `HTTPException(500, str(e))`; on success the matched row
is deleted and the transaction committed. -/
def delete_post (post_id : String) (store : List Post) :
    Except HTTPException DeleteAck × List Post :=
  match uuidParse post_id with
  | none => (.error ⟨500, malformedUuidDetail⟩, store)
  | some u =>
    match store.find? (fun p => p.id == u) with
    | none => (.error ⟨500, notFoundDetail⟩, store)
    | some _ =>
      (.ok ⟨true, "Post deleted successfully"⟩, store.eraseP (fun p => p.id == u))

/-! ## Spec-side definition for the staging-suffix claim -/

/-- Modelled from the spec: "The staging file's suffix is derived from
the declared file name's extension" — the extension in the
`os.path.splitext` sense, i.e. the final dot-suffix of the name
(including the dot), empty when the name has no dot. -/
def fileExtension (filename : String) : String :=
  if filename.data.contains '.' then
    String.mk ('.' :: (filename.data.reverse.takeWhile (fun c => c ≠ '.')).reverse)
  else ""

/-! ## Helper lemmas about the upload handler -/

/-- On the success path (long-enough file name, no staging exception, a
200 gateway envelope, no commit exception) the handler returns the
constructed post, appends exactly it to the store, and the cleanup
state shows the temp file gone and the stream closed. -/
theorem upload_file_success_eq (env : UploadEnv) (filename caption contentType : String)
    (store : List Post) (url name : String)
    (hgw : env.gateway = .envelope 200 url name)
    (hstage : env.stagingExc = none) (hcommit : env.commitExc = none)
    (hfn : 2 ≤ filename.length) :
    upload_file env filename caption contentType store =
      (.ok (some (uploadPost env caption contentType url name)),
        ⟨false, true⟩,
        store ++ [uploadPost env caption contentType url name]) := by
  unfold upload_file uploadBody stagingSuffix
  rw [if_pos hfn, hstage, hgw, hcommit]
  simp [finallyCleanup]

/-- A staging suffix is only produced for file names of length at least
two. -/
theorem stagingSuffix_ok_length (filename suf : String)
    (h : stagingSuffix filename = .ok suf) : 2 ≤ filename.length := by
  unfold stagingSuffix at h
  by_cases hl : 2 ≤ filename.length
  · exact hl
  · rw [if_neg hl] at h
    exact absurd h (by simp)

/-- Inversion: if the handler returned `some post`, the run was a
success run and `post` is the constructed post. -/
theorem upload_file_ok_some_inv (env : UploadEnv) (filename caption contentType : String)
    (store : List Post) (post : Post)
    (hok : (upload_file env filename caption contentType store).1 = .ok (some post)) :
    ∃ url name, env.gateway = .envelope 200 url name ∧ env.stagingExc = none ∧
      env.commitExc = none ∧ post = uploadPost env caption contentType url name ∧
      (upload_file env filename caption contentType store).2.2 = store ++ [post] := by
  cases hsuf : stagingSuffix filename with
  | error m =>
    simp [upload_file, uploadBody, hsuf] at hok
  | ok suf =>
    cases hst : env.stagingExc with
    | some m =>
      simp [upload_file, uploadBody, hsuf, hst] at hok
    | none =>
      cases hgw : env.gateway with
      | raises m =>
        simp [upload_file, uploadBody, hsuf, hst, hgw] at hok
      | envelope status url name =>
        by_cases hs : status = 200
        · subst hs
          cases hc : env.commitExc with
          | some m =>
            simp [upload_file, uploadBody, hsuf, hst, hgw, hc] at hok
          | none =>
            have hfn := stagingSuffix_ok_length filename suf hsuf
            have heq := upload_file_success_eq env filename caption contentType
              store url name hgw hst hc hfn
            simp only [heq, Except.ok.injEq, Option.some.injEq] at hok
            refine ⟨url, name, rfl, rfl, rfl, hok.symm, ?_⟩
            rw [heq, hok]
        · simp [upload_file, uploadBody, hsuf, hst, hgw, hs] at hok

/-- C1: For every upload request where the Media Upload Gateway returns
status 200 with a url and a canonical name (and no exception occurs),
the upload operation creates and persists exactly one Post whose
`file_type` is `"image"` (for a non-video content type), whose `url`
and `file_name` equal the gateway-returned values, whose `caption`
equals the supplied caption, and whose `id` is the freshly generated
UUID (distinct from every stored id), and returns that Post. -/
theorem upload_success_creates_post (env : UploadEnv)
    (filename caption contentType url name : String) (store : List Post)
    (hgw : env.gateway = .envelope 200 url name)
    (hstage : env.stagingExc = none) (hcommit : env.commitExc = none)
    (hfn : 2 ≤ filename.length)
    (himg : (contentType.data.take 6 == "video/".data) = false)
    (hfresh : env.freshId ∉ store.map Post.id) :
    ∃ post : Post,
      (upload_file env filename caption contentType store).1 = .ok (some post) ∧
      (upload_file env filename caption contentType store).2.2 = store ++ [post] ∧
      post.file_type = "image" ∧ post.url = url ∧ post.file_name = name ∧
      post.caption = caption ∧ post.id = env.freshId ∧ post.id ∉ store.map Post.id := by
  refine ⟨uploadPost env caption contentType url name, ?_, ?_, ?_, rfl, rfl, rfl, rfl, hfresh⟩
  · rw [upload_file_success_eq env filename caption contentType store url name
      hgw hstage hcommit hfn]
  · rw [upload_file_success_eq env filename caption contentType store url name
      hgw hstage hcommit hfn]
  · simp [uploadPost, fileTypeOf, himg]

/-- A concrete timestamp for witnesses. -/
def dtW : DateTime := ⟨2024, 5, 17, 12, 30, 45, 123456⟩

/-- A concrete all-success upload environment for witnesses. -/
def envW : UploadEnv :=
  { stagingExc := none, gateway := .envelope 200 "https://cdn/x.jpg" "x_abc123.jpg",
    commitExc := none, freshId := 7, createdNow := dtW, updatedNow := dtW }

/-- Witness for C1 at a concrete input. -/
theorem upload_success_creates_post_witness :
    (envW.gateway = .envelope 200 "https://cdn/x.jpg" "x_abc123.jpg") ∧
    (envW.stagingExc = none) ∧ (envW.commitExc = none) ∧
    (2 ≤ ("photo.jpg" : String).length) ∧
    (("image/png" : String).data.take 6 == "video/".data) = false ∧
    (envW.freshId ∉ ([] : List Post).map Post.id) ∧
    (∃ post : Post,
      (upload_file envW "photo.jpg" "hello" "image/png" []).1 = .ok (some post) ∧
      (upload_file envW "photo.jpg" "hello" "image/png" []).2.2 = [] ++ [post] ∧
      post.file_type = "image" ∧ post.url = "https://cdn/x.jpg" ∧
      post.file_name = "x_abc123.jpg" ∧ post.caption = "hello" ∧
      post.id = envW.freshId ∧ post.id ∉ ([] : List Post).map Post.id) :=
  ⟨rfl, rfl, rfl, by decide, by decide, by decide,
    upload_success_creates_post envW "photo.jpg" "hello" "image/png"
      "https://cdn/x.jpg" "x_abc123.jpg" [] rfl rfl rfl (by decide) (by decide)
      (by decide)⟩

/-- Whether an upload outcome is a raised failure (an `HTTPException`)
as opposed to a returned value. -/
def uploadResultIsFailure (r : Except HTTPException (Option Post)) : Bool :=
  match r with
  | .error _ => true
  | .ok _ => false

/-- A concrete environment whose gateway answers with a non-success
envelope (status 500) without raising. -/
def envGw500 : UploadEnv :=
  { stagingExc := none, gateway := .envelope 500 "" "", commitExc := none,
    freshId := 7, createdNow := dtW, updatedNow := dtW }

/-- C2 counterexample: when the gateway returns a non-success status
(500) without raising, the handler does not fail as an UploadFailure —
the `if == 200` has no else branch, so the function falls through and
returns None — refuting the claim that every gateway non-success
outcome fails as an UploadFailure.  (No Post is created, which is the
half of the claim that does hold.) -/
theorem upload_gateway_non200_no_failure_counterexample :
    uploadResultIsFailure (upload_file envGw500 "photo.jpg" "hello" "image/png" []).1 = false ∧
    (upload_file envGw500 "photo.jpg" "hello" "image/png" []).1 = .ok none ∧
    (upload_file envGw500 "photo.jpg" "hello" "image/png" []).2.2 = [] :=
  ⟨rfl, rfl, rfl⟩

/-- C2 (amended): any exception during staging, upload, or persistence
fails the request as `HTTPException(500, str(e))` carrying the
underlying cause, and no Post is created; a gateway non-success status
without an exception also creates no Post, but does not fail — the
handler returns the fall-through `None` value instead. -/
theorem upload_failure_paths (env : UploadEnv)
    (filename caption contentType : String) (store : List Post) :
    (filename.length < 2 →
      (upload_file env filename caption contentType store).1 =
        .error ⟨500, "string index out of range"⟩ ∧
      (upload_file env filename caption contentType store).2.2 = store) ∧
    (∀ m, 2 ≤ filename.length → env.stagingExc = some m →
      (upload_file env filename caption contentType store).1 = .error ⟨500, m⟩ ∧
      (upload_file env filename caption contentType store).2.2 = store) ∧
    (∀ m, 2 ≤ filename.length → env.stagingExc = none →
      env.gateway = .raises m →
      (upload_file env filename caption contentType store).1 = .error ⟨500, m⟩ ∧
      (upload_file env filename caption contentType store).2.2 = store) ∧
    (∀ m url name, 2 ≤ filename.length → env.stagingExc = none →
      env.gateway = .envelope 200 url name → env.commitExc = some m →
      (upload_file env filename caption contentType store).1 = .error ⟨500, m⟩ ∧
      (upload_file env filename caption contentType store).2.2 = store) ∧
    (∀ status url name, 2 ≤ filename.length → env.stagingExc = none →
      env.gateway = .envelope status url name → status ≠ 200 →
      (upload_file env filename caption contentType store).1 = .ok none ∧
      (upload_file env filename caption contentType store).2.2 = store) := by
  refine ⟨?_, ?_, ?_, ?_, ?_⟩
  · intro hshort
    have hfn : ¬ 2 ≤ filename.length := by omega
    constructor <;> simp [upload_file, uploadBody, stagingSuffix, hfn]
  · intro m hfn hst
    constructor <;> simp [upload_file, uploadBody, stagingSuffix, hfn, hst]
  · intro m hfn hst hgw
    constructor <;> simp [upload_file, uploadBody, stagingSuffix, hfn, hst, hgw]
  · intro m url name hfn hst hgw hc
    constructor <;> simp [upload_file, uploadBody, stagingSuffix, hfn, hst, hgw, hc]
  · intro status url name hfn hst hgw hs
    constructor <;> simp [upload_file, uploadBody, stagingSuffix, hfn, hst, hgw, hs]

/-- A concrete environment whose gateway raises. -/
def envGwRaise : UploadEnv :=
  { stagingExc := none, gateway := .raises "connection reset", commitExc := none,
    freshId := 7, createdNow := dtW, updatedNow := dtW }

/-- Witness for the amended C2 at a concrete input (gateway exception
case). -/
theorem upload_failure_paths_witness :
    (2 ≤ ("photo.jpg" : String).length) ∧ (envGwRaise.stagingExc = none) ∧
    (envGwRaise.gateway = .raises "connection reset") ∧
    ((upload_file envGwRaise "photo.jpg" "hello" "image/png" []).1 =
        .error ⟨500, "connection reset"⟩ ∧
      (upload_file envGwRaise "photo.jpg" "hello" "image/png" []).2.2 = []) :=
  ⟨by decide, rfl, rfl,
    (upload_failure_paths envGwRaise "photo.jpg" "hello" "image/png" []).2.2.1
      "connection reset" (by decide) rfl rfl⟩

/-- C3: For every upload request and every outcome (success, gateway
failure envelope, gateway exception, staging exception, commit
exception, or an indexing error computing the suffix), after the
handler returns the scoped temporary staging file no longer exists on
disk and the inbound file stream is closed — the `finally` block of
`app/app.py` lines 96-99 runs on every exit path. -/
theorem upload_cleanup_invariant (env : UploadEnv)
    (filename caption contentType : String) (store : List Post) :
    ((upload_file env filename caption contentType store).2.1).tempOnDisk = false ∧
    ((upload_file env filename caption contentType store).2.1).streamClosed = true := by
  unfold upload_file
  rcases h : uploadBody env filename caption contentType store with ⟨r, created, store'⟩
  cases r <;> cases created <;> simp [finallyCleanup]

/-- C4: the temp-file suffix the code passes is `file.filename[1]` —
the second character of the declared file name — not a suffix derived
from the file name's extension: for `"photo.jpg"` the staged suffix is
`"h"` while the extension is `".jpg"`. -/
theorem staging_suffix_is_second_char_not_extension :
    stagingSuffix "photo.jpg" = .ok "h" ∧
    fileExtension "photo.jpg" = ".jpg" ∧
    ("h" : String) ≠ ".jpg" ∧
    stagingSuffix "a" = .error "string index out of range" :=
  ⟨rfl, by decide, by decide, rfl⟩

/-- C5: the `file_type` stored on a created Post is a pure function of
the declared content-type string alone — it equals
`fileTypeOf contentType` no matter what the environment, file name,
caption or store are — and that function is `"video"` exactly on
strings starting with `"video/"` and `"image"` otherwise. -/
theorem file_type_pure_classification :
    (∀ (env : UploadEnv) (filename caption contentType : String)
      (store : List Post) (post : Post),
      (upload_file env filename caption contentType store).1 = .ok (some post) →
      post.file_type = fileTypeOf contentType) ∧
    (∀ contentType : String, (contentType.data.take 6 == "video/".data) = true →
      fileTypeOf contentType = "video") ∧
    (∀ contentType : String, (contentType.data.take 6 == "video/".data) = false →
      fileTypeOf contentType = "image") := by
  refine ⟨?_, ?_, ?_⟩
  · intro env filename caption contentType store post hok
    obtain ⟨url, name, _, _, _, hpost, _⟩ :=
      upload_file_ok_some_inv env filename caption contentType store post hok
    rw [hpost]
    rfl
  · intro contentType h
    simp [fileTypeOf, h]
  · intro contentType h
    simp [fileTypeOf, h]

/-- The post constructed in the concrete video-upload run used by the
C5 witness. -/
def postV : Post :=
  uploadPost envW "v" "video/mp4" "https://cdn/x.jpg" "x_abc123.jpg"

/-- Witness for C5 at a concrete input: a `"video/mp4"` upload stores
`file_type = fileTypeOf "video/mp4" = "video"`. -/
theorem file_type_pure_classification_witness :
    ((upload_file envW "video.mp4" "v" "video/mp4" []).1 = .ok (some postV)) ∧
    postV.file_type = fileTypeOf "video/mp4" ∧
    (("video/mp4" : String).data.take 6 == "video/".data) = true ∧
    fileTypeOf "video/mp4" = "video" :=
  ⟨rfl,
    file_type_pure_classification.1 envW "video.mp4" "v" "video/mp4" [] postV rfl,
    by decide,
    file_type_pure_classification.2.1 "video/mp4" (by decide)⟩

/-- C9: the upload operation persists the Post with `user_id = None` —
the `Post(...)` call at `app/app.py` lines 81-86 passes no `user_id` —
so the persisted row violates the NOT NULL `user_id` column declared in
`app/db.py` line 38, and the claimed invariant is not established at
creation. -/
theorem upload_persists_null_user_id :
    ((upload_file envW "photo.jpg" "hello" "image/png" []).2.2).map Post.user_id = [none] ∧
    ((upload_file envW "photo.jpg" "hello" "image/png" []).2.2).all postRowSchemaOk = false := by
  constructor <;> rfl

/-! ## Feed ordering -/

/-- A feed sorted weakly descending whose timestamp keys are pairwise
distinct is sorted strictly descending. -/
theorem sorted_feedLT_of_nodup_keys (l : List Post)
    (hs : List.Sorted feedLE l)
    (hn : (l.map (fun p => p.created_at.key)).Nodup) :
    List.Sorted feedLT l := by
  have hp : l.Pairwise (fun a b => a.created_at.key ≠ b.created_at.key) :=
    List.pairwise_map.mp hn
  exact (hs.and hp).imp (fun hab => lt_of_le_of_ne hab.1 (Ne.symm hab.2))

/-- C6: for every state of the store, the feed query returns all Post
records ordered by `created_at` descending; in particular, for a store
holding three Posts with distinct `created_at` values T1 < T2 < T3 (in
any storage order), the feed lists them as [T3, T2, T1]. -/
theorem feed_ordered_descending :
    (∀ store : List Post,
      (feedPosts store).Perm store ∧ List.Sorted feedLE (feedPosts store)) ∧
    (∀ (store : List Post) (p1 p2 p3 : Post), store.Perm [p1, p2, p3] →
      p1.created_at.key < p2.created_at.key →
      p2.created_at.key < p3.created_at.key →
      feedPosts store = [p3, p2, p1]) := by
  constructor
  · intro store
    exact ⟨List.perm_insertionSort feedLE store,
      List.sorted_insertionSort feedLE store⟩
  · intro store p1 p2 p3 hperm h12 h23
    have hperm2 : (feedPosts store).Perm [p1, p2, p3] :=
      (List.perm_insertionSort feedLE store).trans hperm
    have hkeys : ((feedPosts store).map (fun p => p.created_at.key)).Nodup := by
      have h3 : (([p1, p2, p3] : List Post).map (fun p => p.created_at.key)).Nodup := by
        simp [List.nodup_cons]
        omega
      exact ((hperm2.map (fun p => p.created_at.key)).nodup_iff).mpr h3
    have hsortLT : List.Sorted feedLT (feedPosts store) :=
      sorted_feedLT_of_nodup_keys _ (List.sorted_insertionSort feedLE store) hkeys
    have htarget : List.Sorted feedLT [p3, p2, p1] := by
      simp [List.sorted_cons, feedLT]
      omega
    have hperm3 : (feedPosts store).Perm [p3, p2, p1] := by
      refine hperm2.trans ?_
      have hrev : ([p3, p2, p1] : List Post) = [p1, p2, p3].reverse := rfl
      rw [hrev]
      exact (List.reverse_perm [p1, p2, p3]).symm
    exact List.eq_of_perm_of_sorted hperm3 hsortLT htarget

/-- A concrete post with `created_at` in year 2021, for the C6
witness. -/
def pW1 : Post :=
  { id := 1, user_id := none, caption := "a", url := "u1", file_type := "image",
    file_name := "n1", created_at := ⟨2021, 1, 1, 0, 0, 0, 0⟩,
    updated_at := ⟨2021, 1, 1, 0, 0, 0, 0⟩ }

/-- A concrete post with `created_at` in year 2022, for the C6
witness. -/
def pW2 : Post :=
  { id := 2, user_id := none, caption := "b", url := "u2", file_type := "image",
    file_name := "n2", created_at := ⟨2022, 1, 1, 0, 0, 0, 0⟩,
    updated_at := ⟨2022, 1, 1, 0, 0, 0, 0⟩ }

/-- A concrete post with `created_at` in year 2023, for the C6
witness. -/
def pW3 : Post :=
  { id := 3, user_id := none, caption := "c", url := "u3", file_type := "video",
    file_name := "n3", created_at := ⟨2023, 1, 1, 0, 0, 0, 0⟩,
    updated_at := ⟨2023, 1, 1, 0, 0, 0, 0⟩ }

/-- Witness for C6: a store holding the three posts out of order is
listed newest first. -/
theorem feed_ordered_descending_witness :
    (([pW2, pW1, pW3] : List Post).Perm [pW1, pW2, pW3] ∧
      pW1.created_at.key < pW2.created_at.key ∧
      pW2.created_at.key < pW3.created_at.key) ∧
    feedPosts [pW2, pW1, pW3] = [pW3, pW2, pW1] :=
  ⟨⟨by decide, by decide, by decide⟩,
    feed_ordered_descending.2 [pW2, pW1, pW3] pW1 pW2 pW3
      (by decide) (by decide) (by decide)⟩

/-! ## Round-trip serialization -/

/-- C10: for every Post created by a successful upload (with a valid
clock and a 128-bit fresh id), the feed over the resulting store
contains its serialized record, and every field survives the
create-to-feed round trip: the string fields verbatim, the id as a
string parseable back to the original UUID value, and both timestamps
as ISO-8601 strings parseable back to the original instants. -/
theorem post_roundtrip_serialization (env : UploadEnv)
    (filename caption contentType : String) (store : List Post) (post : Post)
    (hok : (upload_file env filename caption contentType store).1 = .ok (some post))
    (hid : env.freshId < 2 ^ 128)
    (hcv : env.createdNow.valid) (huv : env.updatedNow.valid) :
    serializePost post ∈ get_feed ((upload_file env filename caption contentType store).2.2) ∧
    uuidParse (serializePost post).id = some post.id ∧
    (serializePost post).caption = post.caption ∧
    (serializePost post).url = post.url ∧
    (serializePost post).file_type = post.file_type ∧
    (serializePost post).file_name = post.file_name ∧
    fromisoformat (serializePost post).created_at = some post.created_at ∧
    fromisoformat (serializePost post).updated_at = some post.updated_at := by
  obtain ⟨url, name, hgw, hst, hc, hpost, hstore⟩ :=
    upload_file_ok_some_inv env filename caption contentType store post hok
  refine ⟨?_, ?_, rfl, rfl, rfl, rfl, ?_, ?_⟩
  · rw [hstore]
    unfold get_feed
    apply List.mem_map_of_mem
    unfold feedPosts
    rw [List.mem_insertionSort]
    simp
  · show uuidParse (uuidToString post.id) = some post.id
    apply uuidParse_uuidToString
    rw [hpost]
    exact hid
  · show fromisoformat post.created_at.isoformat = some post.created_at
    apply fromisoformat_isoformat
    rw [hpost]
    exact hcv
  · show fromisoformat post.updated_at.isoformat = some post.updated_at
    apply fromisoformat_isoformat
    rw [hpost]
    exact huv

/-- The post created in the concrete success run used by the C10
witness. -/
def postW : Post :=
  uploadPost envW "hello" "image/png" "https://cdn/x.jpg" "x_abc123.jpg"

/-- Witness for C10 at a concrete input. -/
theorem post_roundtrip_serialization_witness :
    ((upload_file envW "photo.jpg" "hello" "image/png" []).1 = .ok (some postW)) ∧
    (envW.freshId < 2 ^ 128) ∧ envW.createdNow.valid ∧ envW.updatedNow.valid ∧
    (serializePost postW ∈ get_feed ((upload_file envW "photo.jpg" "hello" "image/png" []).2.2) ∧
      uuidParse (serializePost postW).id = some postW.id ∧
      (serializePost postW).caption = postW.caption ∧
      (serializePost postW).url = postW.url ∧
      (serializePost postW).file_type = postW.file_type ∧
      (serializePost postW).file_name = postW.file_name ∧
      fromisoformat (serializePost postW).created_at = some postW.created_at ∧
      fromisoformat (serializePost postW).updated_at = some postW.updated_at) :=
  ⟨rfl, by decide, by decide, by decide,
    post_roundtrip_serialization envW "photo.jpg" "hello" "image/png" [] postW
      rfl (by decide) (by decide) (by decide)⟩

/-! ## Delete behavior -/

/-- When the id is well-formed but no stored post has it, `delete_post`
raises the inner 404, which the catch-all `except` converts into a
generic `HTTPException(500, str(e))`; the store is untouched. -/
theorem delete_post_not_found (s : String) (u : Nat) (store : List Post)
    (hu : uuidParse s = some u) (habs : ∀ p ∈ store, p.id ≠ u) :
    delete_post s store = (.error ⟨500, notFoundDetail⟩, store) := by
  unfold delete_post
  have hfind : store.find? (fun p => p.id == u) = none := by
    rw [List.find?_eq_none]
    intro p hp
    simpa using habs p hp
  simp only [hu, hfind]

/-- The HTTP status of a delete outcome: the raised status for a
failure, none for a success acknowledgment. -/
def deleteResultStatus (r : Except HTTPException DeleteAck) : Option Nat :=
  match r with
  | .error e => some e.status_code
  | .ok _ => none

/-- C7 counterexample: deleting a well-formed id that identifies no
Post produces `HTTPException(500, "404: Post not found")` — a generic
500 failure, not a distinct NotFound (404) response — because the
inner `HTTPException(404, ...)` is caught by `except Exception` and
re-raised as a 500. -/
theorem delete_absent_counterexample :
    deleteResultStatus (delete_post "00000000-0000-0000-0000-000000000000" []).1 =
      some 500 ∧
    deleteResultStatus (delete_post "00000000-0000-0000-0000-000000000000" []).1 ≠
      some 404 ∧
    (delete_post "00000000-0000-0000-0000-000000000000" []).1 =
      .error ⟨500, notFoundDetail⟩ ∧
    (delete_post "00000000-0000-0000-0000-000000000000" []).2 = [] :=
  ⟨rfl, by decide, rfl, rfl⟩

/-- C7 (amended): deleting a well-formed UUID id that identifies no
existing Post fails (it is not a success) — though as a generic 500
wrapping the not-found cause rather than a distinct NotFound response —
and never mutates the store; in particular, once an id has been deleted
from a store with unique ids, a second delete of the same id fails the
same way and leaves the store unchanged. -/
theorem delete_absent_fails_and_preserves_store :
    (∀ (s : String) (u : Nat) (store : List Post),
      uuidParse s = some u → (∀ p ∈ store, p.id ≠ u) →
      (delete_post s store).1 = .error ⟨500, notFoundDetail⟩ ∧
      (delete_post s store).2 = store) ∧
    (∀ (s : String) (u : Nat) (store store' : List Post) (ack : DeleteAck),
      uuidParse s = some u → (store.map Post.id).Nodup →
      delete_post s store = (.ok ack, store') →
      (delete_post s store').1 = .error ⟨500, notFoundDetail⟩ ∧
      (delete_post s store').2 = store') := by
  constructor
  · intro s u store hu habs
    rw [delete_post_not_found s u store hu habs]
    exact ⟨rfl, rfl⟩
  · intro s u store store' ack hu hnodup hdel
    unfold delete_post at hdel
    simp only [hu] at hdel
    cases hfind : store.find? (fun p => p.id == u) with
    | none =>
      rw [hfind] at hdel
      exact absurd (congrArg Prod.fst hdel) (by simp)
    | some q =>
      rw [hfind] at hdel
      have hq : (q.id == u) = true :=
        @List.find?_some _ (fun p => p.id == u) q store hfind
      have hqmem : q ∈ store := List.mem_of_find?_eq_some hfind
      have hstore' : store' = store.eraseP (fun p => p.id == u) :=
        (congrArg Prod.snd hdel).symm
      obtain ⟨a, l1, l2, hl1, ha, hsplit, herase⟩ :=
        @List.exists_of_eraseP _ (fun p => p.id == u) store q hqmem hq
      have habs' : ∀ p ∈ store', p.id ≠ u := by
        intro p hp
        rw [hstore', herase] at hp
        rcases List.mem_append.mp hp with hmem | hmem
        · have := hl1 p hmem
          simpa using this
        · have haid : a.id = u := by simpa using ha
          have hne : p.id ≠ a.id := by
            have hmap : (store.map Post.id) =
                (l1.map Post.id) ++ a.id :: (l2.map Post.id) := by
              rw [hsplit]
              simp
            rw [hmap] at hnodup
            have hnodup2 := (List.nodup_append.mp hnodup).2.1
            have := (List.nodup_cons.mp hnodup2).1
            intro hcontra
            exact this (hcontra ▸ List.mem_map_of_mem Post.id hmem)
          rw [← haid]
          exact hne
      rw [delete_post_not_found s u store' hu habs']
      exact ⟨rfl, rfl⟩

/-- Witness for the amended C7 at concrete inputs: deleting id 1 from a
one-post store succeeds, and the second delete of the same id fails
with the generic 500 and leaves the store empty. -/
theorem delete_absent_fails_and_preserves_store_witness :
    (uuidParse "00000000-0000-0000-0000-000000000001" = some 1 ∧
      (([pW1] : List Post).map Post.id).Nodup ∧
      delete_post "00000000-0000-0000-0000-000000000001" [pW1] =
        (.ok ⟨true, "Post deleted successfully"⟩, [])) ∧
    ((delete_post "00000000-0000-0000-0000-000000000001" []).1 =
        .error ⟨500, notFoundDetail⟩ ∧
      (delete_post "00000000-0000-0000-0000-000000000001" []).2 = []) :=
  ⟨⟨by decide, by decide, rfl⟩,
    delete_absent_fails_and_preserves_store.2
      "00000000-0000-0000-0000-000000000001" 1 [pW1] [] ⟨true, "Post deleted successfully"⟩
      (by decide) (by decide) rfl⟩

/-- C8: for every postId string that is not a parseable UUID, the
delete operation raises a generic server failure with status 500 (not
400) — the `ValueError` from `uuid.UUID` is caught by the catch-all
`except` — and this is not distinguished by status from the not-found
case, which also surfaces as a 500. -/
theorem malformed_id_collapses_to_generic_500 :
    (∀ (s : String) (store : List Post), uuidParse s = none →
      (delete_post s store).1 = .error ⟨500, malformedUuidDetail⟩ ∧
      (delete_post s store).2 = store) ∧
    (∀ (s : String) (u : Nat) (store : List Post),
      uuidParse s = some u → (∀ p ∈ store, p.id ≠ u) →
      (delete_post s store).1 = .error ⟨500, notFoundDetail⟩) ∧
    ((500 : Nat) ≠ 400) := by
  refine ⟨?_, ?_, by decide⟩
  · intro s store hu
    unfold delete_post
    rw [hu]
    exact ⟨rfl, rfl⟩
  · intro s u store hu habs
    rw [delete_post_not_found s u store hu habs]

/-- Witness for C8 at a concrete input. -/
theorem malformed_id_collapses_to_generic_500_witness :
    (uuidParse "not-a-uuid" = none) ∧
    ((delete_post "not-a-uuid" [pW1]).1 = .error ⟨500, malformedUuidDetail⟩ ∧
      (delete_post "not-a-uuid" [pW1]).2 = [pW1]) :=
  ⟨by decide,
    malformed_id_collapses_to_generic_500.1 "not-a-uuid" [pW1] (by decide)⟩
